import Mathlib

/-!
Verification development for the model-acquisition and inference-result
pipeline of the soil-classification dashboard (src/src/pages/Dashboard.tsx,
with the stricter variant in src/unnamed/part_000).

Numbers are modelled as rationals (ℚ): every constant in the source
(0.4, 0.3, 0.2) is rational, and the random draws of Math.random are
modelled as arbitrary rationals in [0, 1) supplied by a random source.
Asynchronous effects are modelled by explicit state passing: each handler
maps a component state (the React useState fields) to the settled state
after the handler finishes, together with the list of toast notifications
it emitted.  A call that can throw is modelled as Except.
-/

/-- `interface Prediction { className: string; probability: number }`. -/
structure Prediction where
  className : String
  probability : ℚ
deriving DecidableEq, Repr

/-- The metadata JSON fetched from /assets/metadata.json.  Both fields are
optional because the source accesses them defensively
(`metadataJson.modelName || "soil samples"`, `!metadata.labels`). -/
structure ModelMetadata where
  modelName : Option String
  labels : Option (List String)
deriving DecidableEq, Repr

/-- A toast notification `{title, description, variant}`;
`destructive` is true when the source passes `variant: "destructive"`. -/
structure Toast where
  title : String
  description : String
  destructive : Bool
deriving DecidableEq, Repr

/-- Opaque handle to the uploaded image resource (the object URL plus the
rendered `img` element the source hands to `predict`). -/
abbrev Image := Nat

/-- The classifier capability returned by `tmImage.load`; `predict` either
returns a prediction sequence or throws (modelled as `Except.error`). -/
structure Classifier where
  predict : Image → Except String (List Prediction)

/-- The stream of `Math.random()` draws consumed by one call of
`generateMockPredictions`: `pick` is the draw used for the dominant index,
`draw i` is the draw used for the label at index `i`. -/
structure MockRand where
  pick : ℚ
  draw : Nat → ℚ

/-- Every `Math.random()` result lies in `[0, 1)`. -/
def MockRand.Valid (r : MockRand) : Prop :=
  0 ≤ r.pick ∧ r.pick < 1 ∧ ∀ i, 0 ≤ r.draw i ∧ r.draw i < 1

/-- Sum of the probabilities of a prediction sequence. -/
def probSum (ps : List Prediction) : ℚ :=
  (ps.map Prediction.probability).sum

/-- The reducer `(prev, current) => prev.probability > current.probability ?
prev : current` from the `topPrediction` computation. -/
def topStep (prev current : Prediction) : Prediction :=
  if prev.probability > current.probability then prev else current

/-- `topPrediction` (Dashboard.tsx lines 200-204): `predictions.length > 0 ?
predictions.reduce(...) : null`.  JavaScript `reduce` without an initial
value folds the tail with the head as accumulator. -/
def topPrediction (preds : List Prediction) : Option Prediction :=
  match preds with
  | [] => none
  | p :: rest => some (rest.foldl topStep p)

/-- The `labels.forEach((label, index) => ...)` loop of
`generateMockPredictions`: builds one raw prediction per label, the label at
`dominantIndex` drawn as `Math.random() * 0.3 + 0.4`, every other label as
`Math.random() * 0.2`.  `i` is the index of the first remaining label. -/
def mockRawAux (r : MockRand) (dominantIndex : Nat) : Nat → List String → List Prediction
  | _, [] => []
  | i, label :: rest =>
      ⟨label, if i = dominantIndex then r.draw i * (3/10) + 2/5 else r.draw i * (1/5)⟩ ::
        mockRawAux r dominantIndex (i + 1) rest

/-- `mockPredictions.reduce((sum, p) => sum + p.probability, 0)`. -/
def totalProb (ps : List Prediction) : ℚ :=
  ps.foldl (fun s p => s + p.probability) 0

/-- `generateMockPredictions` (Dashboard.tsx lines 110-139): returns `[]`
when metadata or its label list is absent; otherwise picks
`dominantIndex = Math.floor(Math.random() * labels.length)`, builds the raw
vector, and divides every entry by the raw total. -/
def generateMockPredictions (metadata : Option ModelMetadata) (r : MockRand) :
    List Prediction :=
  match metadata with
  | none => []
  | some md =>
    match md.labels with
    | none => []
    | some labels =>
      let dominantIndex := Nat.floor (r.pick * labels.length)
      let mockPredictions := mockRawAux r dominantIndex 0 labels
      let total := totalProb mockPredictions
      mockPredictions.map fun p => ⟨p.className, p.probability / total⟩

/-- The useState fields of the Dashboard component (Dashboard.tsx). -/
structure DashState where
  image : Option Image
  predictions : List Prediction
  isAnalyzing : Bool
  metadata : Option ModelMetadata
  model : Option Classifier
  modelLoadError : Option String

/-- The source holds a real model iff `model && !modelLoadError`; this is
the `Ready` acquisition state of the spec. -/
def DashState.isReady (s : DashState) : Prop :=
  s.model.isSome = true ∧ s.modelLoadError = none

def cannotAnalyzeToast : Toast :=
  ⟨"Cannot analyze", "Please upload an image first", true⟩

def analysisCompleteToast : Toast :=
  ⟨"Analysis complete", "Soil classification results are ready", false⟩

/-- `analyzeImage` (Dashboard.tsx lines 141-189).  The settled state after
the handler: the no-image guard returns before touching any state; otherwise
`isAnalyzing` ends false (finally block) and `predictions` receives the real
output when `model && !modelLoadError` and `predict` succeeds, else the
synthetic output; a throwing `predict` is caught and replaced by the
synthetic output.  `imageRef.current` is rendered exactly when `image` is
set, so the guard `!image || !imageRef.current` is modelled by `s.image`. -/
def analyzeImage (s : DashState) (r : MockRand) : DashState × List Toast :=
  match s.image with
  | none => (s, [cannotAnalyzeToast])
  | some img =>
    match s.model, s.modelLoadError with
    | some m, none =>
      match m.predict img with
      | Except.ok prediction =>
          ({ s with predictions := prediction, isAnalyzing := false },
            [analysisCompleteToast])
      | Except.error _ =>
          ({ s with predictions := generateMockPredictions s.metadata r,
                    isAnalyzing := false },
            [analysisCompleteToast])
    | _, _ =>
        ({ s with predictions := generateMockPredictions s.metadata r,
                  isAnalyzing := false },
          [analysisCompleteToast])

/-- Outcome of one `fetch("/assets/metadata.json")` followed by `.json()`:
`ok` is `response.ok` (this Dashboard variant never reads it), `body` is the
parsed metadata, or `Except.error` when the fetch itself or the body parse
throws. -/
structure FetchResult where
  ok : Bool
  body : Except String ModelMetadata

/-- The environment of one `loadModel` run: the two metadata fetches (the
initial one and the best-effort retry inside the catch block), whether the
global `window.tmImage` object is present, and the results of the two
possible `tmImage.load` calls. -/
structure LoadEnv where
  fetch1 : FetchResult
  fetch2 : FetchResult
  windowTm : Bool
  globalLoad : Except String Classifier
  npmLoad : Except String Classifier

def loadErrorMsg : String :=
  "Failed to load the soil classification model. Using fallback mode."

def modelLoadFailedToast : Toast :=
  ⟨"Model loading failed", "Using fallback classification mode", true⟩

def modelLoadedToast (md : ModelMetadata) : Toast :=
  ⟨"Model loaded", "Ready to analyze " ++ md.modelName.getD "soil samples", false⟩

/-- The catch block of `loadModel` (Dashboard.tsx lines 64-81): set the load
error, emit the destructive toast, and retry the metadata fetch
best-effort. -/
def loadModelCatch (env : LoadEnv) (s : DashState) : DashState × List Toast :=
  let s1 : DashState := { s with modelLoadError := some loadErrorMsg }
  match env.fetch2.body with
  | Except.ok md2 => ({ s1 with metadata := some md2 }, [modelLoadFailedToast])
  | Except.error _ => (s1, [modelLoadFailedToast])

/-- `loadModel` (Dashboard.tsx lines 31-85): fetch metadata (no `.ok`
check), then load the classifier through the global object when present,
else the npm package; on success set the model and clear the error, on any
throw run the catch block. -/
def loadModel (env : LoadEnv) (s : DashState) : DashState × List Toast :=
  match env.fetch1.body with
  | Except.error _ => loadModelCatch env s
  | Except.ok md =>
    let s1 : DashState := { s with metadata := some md }
    match (if env.windowTm then env.globalLoad else env.npmLoad) with
    | Except.ok m =>
        ({ s1 with model := some m, modelLoadError := none },
          [modelLoadedToast md])
    | Except.error _ => loadModelCatch env s1

/-- The useState fields of the stricter Dashboard variant
(src/unnamed/part_000), which adds a progress value and has no synthetic
fallback in `analyzeImage`. -/
structure StrictState where
  image : Option Image
  predictions : List Prediction
  isAnalyzing : Bool
  metadata : Option ModelMetadata
  model : Option Classifier
  modelError : Option String
  progressValue : ℚ

def modelNotLoadedToast : Toast :=
  ⟨"Model not loaded", "The soil classification model is not loaded yet", true⟩

def strictFailedToast (e : String) : Toast :=
  ⟨"Analysis failed", "Error: " ++ e, true⟩

/-- `analyzeImage` of the stricter variant (part_000 lines 113-164): reject
with "Cannot analyze" when no image, then reject with "Model not loaded"
when the model is not yet loaded; otherwise clear the predictions and run
the real `predict`, publishing its output on success and a destructive
failure toast (no synthetic fallback) on a throw.  The finally block ends
with `isAnalyzing = false`, progress briefly 100 and then reset to 0 after
a delay; the settled state is recorded. -/
def analyzeImageStrict (s : StrictState) : StrictState × List Toast :=
  match s.image with
  | none => (s, [cannotAnalyzeToast])
  | some img =>
    match s.model with
    | none => (s, [modelNotLoadedToast])
    | some m =>
      match m.predict img with
      | Except.ok prediction =>
          ({ s with predictions := prediction, isAnalyzing := false,
                    progressValue := 0 },
            [analysisCompleteToast])
      | Except.error e =>
          ({ s with predictions := [], isAnalyzing := false,
                    progressValue := 0 },
            [strictFailedToast e])

@[simp]
lemma probSum_nil : probSum [] = 0 := rfl

@[simp]
lemma probSum_cons (p : Prediction) (ps : List Prediction) :
    probSum (p :: ps) = p.probability + probSum ps := by
  simp [probSum]

lemma foldl_add_probability (ps : List Prediction) (a : ℚ) :
    ps.foldl (fun s p => s + p.probability) a = a + probSum ps := by
  induction ps generalizing a with
  | nil => simp
  | cons p ps ih => simp [ih, add_assoc]

/-- The reduce-based total of the source equals the probability sum. -/
lemma totalProb_eq (ps : List Prediction) : totalProb ps = probSum ps := by
  simp [totalProb, foldl_add_probability]

lemma probSum_map_div (ps : List Prediction) (t : ℚ) :
    probSum (ps.map fun p => (⟨p.className, p.probability / t⟩ : Prediction)) =
      probSum ps / t := by
  induction ps with
  | nil => simp
  | cons p ps ih => simp [ih, div_add_div_same]

@[simp]
lemma mockRawAux_length (r : MockRand) (d i : Nat) (ls : List String) :
    (mockRawAux r d i ls).length = ls.length := by
  induction ls generalizing i with
  | nil => rfl
  | cons x xs ih => simp [mockRawAux, ih]

lemma mockRawAux_sum_nonneg (r : MockRand) (hr : ∀ j, 0 ≤ r.draw j)
    (d i : Nat) (ls : List String) :
    0 ≤ probSum (mockRawAux r d i ls) := by
  induction ls generalizing i with
  | nil => simp [mockRawAux]
  | cons x xs ih =>
      simp only [mockRawAux, probSum_cons]
      have h1 : 0 ≤ (if i = d then r.draw i * (3/10) + 2/5 else r.draw i * (1/5)) := by
        split <;> nlinarith [hr i]
      have h2 := ih (i + 1)
      linarith

lemma mockRawAux_sum_ge (r : MockRand) (hr : ∀ j, 0 ≤ r.draw j)
    (d i : Nat) (ls : List String) (hlo : i ≤ d) (hhi : d < i + ls.length) :
    2/5 ≤ probSum (mockRawAux r d i ls) := by
  induction ls generalizing i with
  | nil => simp at hhi; omega
  | cons x xs ih =>
      simp only [mockRawAux, probSum_cons]
      rcases eq_or_lt_of_le hlo with heq | hlt
      · rw [if_pos heq]
        have h2 := mockRawAux_sum_nonneg r hr d (i + 1) xs
        nlinarith [hr i]
      · have h1 : 0 ≤ (if i = d then r.draw i * (3/10) + 2/5 else r.draw i * (1/5)) := by
          split <;> nlinarith [hr i]
        have h2 := ih (i + 1) hlt (by simp at hhi ⊢; omega)
        linarith

/-- The raw synthetic total is at least 0.4 for a non-empty label list with
a valid random source (the dominant raw draw alone is at least 0.4). -/
lemma mock_total_ge (labels : List String) (r : MockRand)
    (hr : r.Valid) (hne : labels ≠ []) :
    2/5 ≤ totalProb (mockRawAux r (Nat.floor (r.pick * labels.length)) 0 labels) := by
  obtain ⟨hp0, hp1, hd⟩ := hr
  have hlen : 0 < labels.length := List.length_pos.mpr hne
  have hfl : Nat.floor (r.pick * labels.length) < labels.length := by
    rw [Nat.floor_lt (by positivity)]
    calc r.pick * (labels.length : ℚ) < 1 * labels.length := by
          apply mul_lt_mul_of_pos_right hp1
          exact_mod_cast hlen
      _ = labels.length := one_mul _
  rw [totalProb_eq]
  exact mockRawAux_sum_ge r (fun j => (hd j).1) _ 0 labels (Nat.zero_le _)
    (by simpa using hfl)

/-- For loaded metadata with a non-empty label list and a valid random
source, the synthetic predictions have one entry per label and their
probabilities sum to exactly 1. -/
lemma generateMock_length_sum (md : ModelMetadata) (labels : List String)
    (r : MockRand) (hl : md.labels = some labels) (hne : labels ≠ [])
    (hr : r.Valid) :
    (generateMockPredictions (some md) r).length = labels.length ∧
      probSum (generateMockPredictions (some md) r) = 1 := by
  have htot := mock_total_ge labels r hr hne
  have htne : totalProb (mockRawAux r (Nat.floor (r.pick * labels.length)) 0 labels) ≠ 0 := by
    linarith
  constructor
  · simp [generateMockPredictions, hl]
  · simp only [generateMockPredictions, hl]
    rw [probSum_map_div, ← totalProb_eq, div_self htne]

/-- Characterisation of the JavaScript reduce with `topStep`: the
accumulator after folding `l` from `p` sits somewhere in `p :: l`, its
probability bounds every entry, and every entry strictly after it has
strictly smaller probability (so a tie is resolved to the LAST maximal
entry, since an equal later entry would have replaced the accumulator). -/
lemma foldl_topStep_spec (p : Prediction) (l : List Prediction) :
    ∃ l1 l2, p :: l = l1 ++ (l.foldl topStep p) :: l2 ∧
      (∀ q ∈ p :: l, q.probability ≤ (l.foldl topStep p).probability) ∧
      (∀ q ∈ l2, q.probability < (l.foldl topStep p).probability) := by
  induction l generalizing p with
  | nil =>
      exact ⟨[], [], rfl, by simp, by simp⟩
  | cons c t ih =>
      have hfold : (c :: t).foldl topStep p = t.foldl topStep (topStep p c) := rfl
      rw [hfold]
      by_cases hpc : c.probability < p.probability
      · have hstep : topStep p c = p := by
          simp [topStep, hpc]
        rw [hstep]
        obtain ⟨l1, l2, hdec, hbound, hstrict⟩ := ih p
        match l1, hdec with
        | [], hdec =>
            have hp : t.foldl topStep p = p := by
              have := hdec
              simp at this
              exact this.1.symm
            have hl2 : l2 = t := by
              have := hdec
              simp at this
              exact this.2.symm
            refine ⟨[], c :: t, ?_, ?_, ?_⟩
            · simp [hp]
            · intro q hq
              rcases List.mem_cons.mp hq with h | h
              · subst h; exact hbound q (by simp)
              · rcases List.mem_cons.mp h with h | h
                · subst h; rw [hp]; exact le_of_lt hpc
                · exact hbound q (by simp [h])
            · intro q hq
              rcases List.mem_cons.mp hq with h | h
              · subst h; rw [hp]; exact hpc
              · rw [← hl2] at h; exact hstrict q h
        | a :: l1, hdec =>
            have ha : a = p := by
              have := congrArg (fun xs => List.head? xs) hdec
              simp at this
              exact this.symm
            have ht : t = l1 ++ t.foldl topStep p :: l2 := by
              have := congrArg (fun xs => List.tail xs) hdec
              simpa using this
            refine ⟨p :: c :: l1, l2, ?_, ?_, ?_⟩
            · rw [show p :: c :: l1 ++ t.foldl topStep p :: l2 =
                    p :: c :: (l1 ++ t.foldl topStep p :: l2) by simp, ← ht]
            · intro q hq
              rcases List.mem_cons.mp hq with h | h
              · subst h; exact hbound q (by simp)
              · rcases List.mem_cons.mp h with h | h
                · subst h
                  have hple := hbound p (by simp)
                  exact le_trans (le_of_lt hpc) hple
                · exact hbound q (by simp [h])
            · exact hstrict
      · have hstep : topStep p c = c := by
          simp [topStep]
          intro h
          exact absurd h hpc
        rw [hstep]
        obtain ⟨l1, l2, hdec, hbound, hstrict⟩ := ih c
        refine ⟨p :: l1, l2, ?_, ?_, ?_⟩
        · rw [show (p :: l1) ++ t.foldl topStep c :: l2 =
                p :: (l1 ++ t.foldl topStep c :: l2) by simp, ← hdec]
        · intro q hq
          rcases List.mem_cons.mp hq with h | h
          · subst h
            have hcle := hbound c (by simp)
            exact le_trans (not_lt.mp hpc) hcle
          · exact hbound q h
        · exact hstrict

/-- Concrete fixtures used by witnesses and counterexamples. -/
def mdSoil : ModelMetadata :=
  ⟨some "Soil Classifier", some ["Clay", "Sand", "Loam"]⟩

def randHalf : MockRand := ⟨0, fun _ => 1/2⟩

def randZero : MockRand := ⟨0, fun _ => 0⟩

lemma randHalf_valid : randHalf.Valid := by
  refine ⟨le_refl 0, by norm_num [randHalf], fun i => ?_⟩
  constructor <;> norm_num [randHalf]

lemma randZero_valid : randZero.Valid := by
  refine ⟨le_refl 0, by norm_num [randZero], fun i => ?_⟩
  constructor <;> norm_num [randZero]

/-- C1 counterexample: on the tied sequence
`[{Clay, 1/2}, {Sand, 1/2}]` both entries attain the maximal probability;
the claim says the top prediction is the earliest such entry (Clay), but the
source reducer keeps `prev` only on a strict `>`, so the tie resolves to the
later entry (Sand). -/
theorem topPrediction_tie_earliest_cex :
    topPrediction [⟨"Clay", 1/2⟩, ⟨"Sand", 1/2⟩] ≠ some ⟨"Clay", 1/2⟩ ∧
      topPrediction [⟨"Clay", 1/2⟩, ⟨"Sand", 1/2⟩] = some ⟨"Sand", 1/2⟩ := by
  have h : topPrediction [⟨"Clay", 1/2⟩, ⟨"Sand", 1/2⟩] = some ⟨"Sand", 1/2⟩ := by
    norm_num [topPrediction, topStep]
  refine ⟨?_, h⟩
  rw [h]
  simp

/-- C1 (amended): for every non-empty prediction sequence the derived top
prediction exists, its probability is greater than or equal to the
probability of every entry, and when two or more entries share the maximum
probability the top prediction is the LATEST such entry in label order:
the sequence splits as `l1 ++ top :: l2` with every entry of `l2` strictly
below `top`. -/
theorem topPrediction_is_max_tie_latest (preds : List Prediction)
    (h : preds ≠ []) :
    ∃ top l1 l2, topPrediction preds = some top ∧ preds = l1 ++ top :: l2 ∧
      (∀ q ∈ preds, q.probability ≤ top.probability) ∧
      (∀ q ∈ l2, q.probability < top.probability) := by
  match preds, h with
  | p :: rest, _ =>
    obtain ⟨l1, l2, hdec, hbound, hstrict⟩ := foldl_topStep_spec p rest
    exact ⟨_, l1, l2, rfl, hdec, hbound, hstrict⟩

/-- Witness for C1 at the concrete sequence `[{Clay, 3/4}, {Sand, 1/4}]`. -/
theorem topPrediction_is_max_tie_latest_witness :
    ([⟨"Clay", 3/4⟩, ⟨"Sand", 1/4⟩] : List Prediction) ≠ [] ∧
      ∃ top l1 l2,
        topPrediction [⟨"Clay", 3/4⟩, ⟨"Sand", 1/4⟩] = some top ∧
        ([⟨"Clay", 3/4⟩, ⟨"Sand", 1/4⟩] : List Prediction) = l1 ++ top :: l2 ∧
        (∀ q ∈ ([⟨"Clay", 3/4⟩, ⟨"Sand", 1/4⟩] : List Prediction),
          q.probability ≤ top.probability) ∧
        (∀ q ∈ l2, q.probability < top.probability) :=
  ⟨by simp, topPrediction_is_max_tie_latest [⟨"Clay", 3/4⟩, ⟨"Sand", 1/4⟩] (by simp)⟩

/-- C6: an `analyze` call with no uploaded image is rejected immediately:
the state (predictions, isAnalyzing, everything) is unchanged, the only
side effect is the single destructive "Cannot analyze" toast, and neither
inference nor synthetic generation runs (the result does not depend on the
classifier or the random source). -/
theorem analyze_no_image_rejected (s : DashState) (r : MockRand)
    (h : s.image = none) :
    analyzeImage s r = (s, [cannotAnalyzeToast]) := by
  unfold analyzeImage
  rw [h]

/-- Witness for C6 at a concrete state with no image. -/
theorem analyze_no_image_rejected_witness :
    (DashState.mk none [] false (some mdSoil) none none).image = none ∧
      analyzeImage (DashState.mk none [] false (some mdSoil) none none) randHalf =
        (DashState.mk none [] false (some mdSoil) none none, [cannotAnalyzeToast]) :=
  ⟨rfl, analyze_no_image_rejected _ randHalf rfl⟩

/-- C9: in the stricter variant, an `analyze` call with an image uploaded
but the model not yet loaded is rejected with the "Model not loaded" toast;
the state (in particular the published predictions) is unchanged and no
inference is attempted. -/
theorem strict_analyze_model_not_ready (s : StrictState) (img : Image)
    (himg : s.image = some img) (hm : s.model = none) :
    analyzeImageStrict s = (s, [modelNotLoadedToast]) := by
  unfold analyzeImageStrict
  rw [himg, hm]

/-- Witness for C9 at a concrete loading-state with an uploaded image. -/
theorem strict_analyze_model_not_ready_witness :
    (StrictState.mk (some 0) [] false (some mdSoil) none none 10).image = some 0 ∧
      (StrictState.mk (some 0) [] false (some mdSoil) none none 10).model = none ∧
      analyzeImageStrict (StrictState.mk (some 0) [] false (some mdSoil) none none 10) =
        (StrictState.mk (some 0) [] false (some mdSoil) none none 10,
          [modelNotLoadedToast]) :=
  ⟨rfl, rfl, strict_analyze_model_not_ready _ 0 rfl rfl⟩

/-- When an image is present and a load error is recorded, `analyzeImage`
takes the synthetic branch regardless of whether a model object is held. -/
lemma analyzeImage_fallback (s : DashState) (r : MockRand) (img : Image)
    (himg : s.image = some img) (hdeg : s.modelLoadError.isSome = true) :
    analyzeImage s r =
      ({ s with predictions := generateMockPredictions s.metadata r,
                isAnalyzing := false }, [analysisCompleteToast]) := by
  obtain ⟨e, he⟩ := Option.isSome_iff_exists.mp hdeg
  cases hm : s.model with
  | none => simp only [analyzeImage, himg, he, hm]
  | some m => simp only [analyzeImage, himg, he, hm]

/-- C2: while acquisition is degraded (a model-load error is recorded) and
metadata with a non-empty label list is loaded, every `analyze` call
publishes a prediction sequence whose length equals the number of labels
and whose probabilities sum to 1.0 within 1e-6 (in the rational model the
sum is exactly 1). -/
theorem analyze_degraded_distribution (s : DashState) (r : MockRand)
    (img : Image) (md : ModelMetadata) (labels : List String)
    (himg : s.image = some img) (hdeg : s.modelLoadError.isSome = true)
    (hmd : s.metadata = some md) (hl : md.labels = some labels)
    (hne : labels ≠ []) (hr : r.Valid) :
    ((analyzeImage s r).1.predictions).length = labels.length ∧
      |probSum ((analyzeImage s r).1.predictions) - 1| ≤ 1/1000000 := by
  rw [analyzeImage_fallback s r img himg hdeg]
  simp only [hmd]
  obtain ⟨hlen, hsum⟩ := generateMock_length_sum md labels r hl hne hr
  exact ⟨hlen, by rw [hsum]; norm_num⟩

/-- Witness for C2 at a concrete degraded state with the soil metadata. -/
theorem analyze_degraded_distribution_witness :
    (DashState.mk (some 0) [] false (some mdSoil) none (some "err")).image = some 0 ∧
      (DashState.mk (some 0) [] false (some mdSoil) none (some "err")).modelLoadError.isSome = true ∧
      (DashState.mk (some 0) [] false (some mdSoil) none (some "err")).metadata = some mdSoil ∧
      mdSoil.labels = some ["Clay", "Sand", "Loam"] ∧
      (["Clay", "Sand", "Loam"] : List String) ≠ [] ∧ randHalf.Valid ∧
      (((analyzeImage (DashState.mk (some 0) [] false (some mdSoil) none (some "err")) randHalf).1.predictions).length =
        (["Clay", "Sand", "Loam"] : List String).length ∧
        |probSum ((analyzeImage (DashState.mk (some 0) [] false (some mdSoil) none (some "err")) randHalf).1.predictions) - 1| ≤ 1/1000000) :=
  ⟨rfl, rfl, rfl, rfl, by simp, randHalf_valid,
    analyze_degraded_distribution _ randHalf 0 mdSoil ["Clay", "Sand", "Loam"]
      rfl rfl rfl rfl (by simp) randHalf_valid⟩

/-- C3: in the `Ready` state a non-null classifier handle is held, and an
`analyze` call whose real `predict` succeeds publishes that output
unmodified; the synthetic generator is not invoked: the whole result is
independent of the random source. -/
theorem ready_analyze_real_unmodified (s : DashState) (img : Image)
    (r : MockRand) (hready : s.isReady) (himg : s.image = some img) :
    ∃ m, s.model = some m ∧
      ∀ preds, m.predict img = Except.ok preds →
        (analyzeImage s r).1.predictions = preds ∧
        ∀ r2, analyzeImage s r2 = analyzeImage s r := by
  obtain ⟨hsome, herr⟩ := hready
  obtain ⟨m, hm⟩ := Option.isSome_iff_exists.mp hsome
  refine ⟨m, hm, fun preds hp => ?_⟩
  have key : ∀ r3 : MockRand, analyzeImage s r3 =
      ({ s with predictions := preds, isAnalyzing := false },
        [analysisCompleteToast]) := by
    intro r3
    simp only [analyzeImage, himg, hm, herr, hp]
  exact ⟨by rw [key r], fun r2 => by rw [key r2, key r]⟩

/-- The classifier used by successful-path witnesses: always returns a
fixed distribution. -/
def okClassifier : Classifier :=
  ⟨fun _ => Except.ok [⟨"Clay", 9/10⟩, ⟨"Sand", 1/10⟩, ⟨"Loam", 0⟩]⟩

def readyState : DashState :=
  ⟨some 0, [], false, some mdSoil, some okClassifier, none⟩

/-- Witness for C3 at a concrete ready state. -/
theorem ready_analyze_real_unmodified_witness :
    readyState.isReady ∧ readyState.image = some 0 ∧
      (∃ m, readyState.model = some m ∧
        ∀ preds, m.predict 0 = Except.ok preds →
          (analyzeImage readyState randHalf).1.predictions = preds ∧
          ∀ r2, analyzeImage readyState r2 = analyzeImage readyState randHalf) :=
  ⟨⟨rfl, rfl⟩, rfl, ready_analyze_real_unmodified readyState 0 randHalf ⟨rfl, rfl⟩ rfl⟩

/-- C4: in the `Ready` state, when the real `predict` throws, the failure
is not propagated: the call still publishes the synthetic distribution
generated from the loaded metadata labels together with the ordinary
completion toast, and that distribution sums to 1 whenever the metadata
holds a non-empty label list and the random source is valid. -/
theorem ready_predict_throws_fallback (s : DashState) (m : Classifier)
    (img : Image) (e : String) (r : MockRand)
    (hm : s.model = some m) (herr : s.modelLoadError = none)
    (himg : s.image = some img) (hp : m.predict img = Except.error e) :
    (analyzeImage s r).1.predictions = generateMockPredictions s.metadata r ∧
      (analyzeImage s r).2 = [analysisCompleteToast] ∧
      ∀ md labels, s.metadata = some md → md.labels = some labels →
        labels ≠ [] → r.Valid →
        probSum ((analyzeImage s r).1.predictions) = 1 := by
  have key : analyzeImage s r =
      ({ s with predictions := generateMockPredictions s.metadata r,
                isAnalyzing := false }, [analysisCompleteToast]) := by
    simp only [analyzeImage, himg, hm, herr, hp]
  refine ⟨by rw [key], by rw [key], ?_⟩
  intro md labels hmd hl hne hr
  rw [key]
  simp only [hmd]
  exact (generateMock_length_sum md labels r hl hne hr).2

/-- The classifier used by failing-predict witnesses: always throws. -/
def failClassifier : Classifier := ⟨fun _ => Except.error "malformed image"⟩

def readyFailState : DashState :=
  ⟨some 0, [], false, some mdSoil, some failClassifier, none⟩

/-- Witness for C4 at a concrete ready state whose predict throws. -/
theorem ready_predict_throws_fallback_witness :
    readyFailState.model = some failClassifier ∧
      readyFailState.modelLoadError = none ∧
      readyFailState.image = some 0 ∧
      failClassifier.predict 0 = Except.error "malformed image" ∧
      ((analyzeImage readyFailState randHalf).1.predictions =
          generateMockPredictions readyFailState.metadata randHalf ∧
        (analyzeImage readyFailState randHalf).2 = [analysisCompleteToast] ∧
        ∀ md labels, readyFailState.metadata = some md → md.labels = some labels →
          labels ≠ [] → randHalf.Valid →
          probSum ((analyzeImage readyFailState randHalf).1.predictions) = 1) :=
  ⟨rfl, rfl, rfl, rfl,
    ready_predict_throws_fallback readyFailState failClassifier 0
      "malformed image" randHalf rfl rfl rfl rfl⟩

def initialState : DashState := ⟨none, [], false, none, none, none⟩

/-- An acquisition environment whose metadata response has a non-success
HTTP status (`ok = false`) but a body that still parses, and whose
classifier load succeeds through the npm package. -/
def envNonOkStatus : LoadEnv :=
  ⟨⟨false, Except.ok mdSoil⟩, ⟨false, Except.error "retry fails"⟩, false,
    Except.error "no global object", Except.ok okClassifier⟩

/-- C7 counterexample: the claim counts a non-success status as a failed
metadata request and asserts the resulting state can never be `Ready`; but
this Dashboard variant never reads `response.ok`, so with a non-success
status whose body still parses and a successful classifier load the run
ends `Ready`. -/
theorem loadModel_nonOk_status_ready_cex :
    envNonOkStatus.fetch1.ok = false ∧
      (loadModel envNonOkStatus initialState).1.isReady := by
  exact ⟨rfl, rfl, rfl⟩

/-- C7 (amended): when the metadata request THROWS (network error or
malformed body — the failure modes this variant can observe), the service
still continues toward the fallback path: it records the load error, emits
the warning toast, retries the metadata fetch best-effort (adopting its
body when that retry succeeds), and the resulting state is never
`Ready`. -/
theorem loadModel_fetch_throws_not_ready (env : LoadEnv) (s : DashState)
    (e : String) (h : env.fetch1.body = Except.error e) :
    ¬ (loadModel env s).1.isReady ∧
      (loadModel env s).1.modelLoadError = some loadErrorMsg ∧
      (loadModel env s).2 = [modelLoadFailedToast] ∧
      ∀ md2, env.fetch2.body = Except.ok md2 →
        (loadModel env s).1.metadata = some md2 := by
  have key : loadModel env s = loadModelCatch env s := by
    simp only [loadModel, h]
  rw [key]
  unfold loadModelCatch
  cases h2 : env.fetch2.body with
  | ok md2 =>
      refine ⟨?_, rfl, rfl, ?_⟩
      · rintro ⟨-, h3⟩
        cases h3
      · intro md3 h3
        injection h3 with h4
        rw [← h4]
  | error e2 =>
      refine ⟨?_, rfl, rfl, ?_⟩
      · rintro ⟨-, h3⟩
        cases h3
      · intro md3 h3
        cases h3

/-- An acquisition environment whose first metadata fetch throws and whose
retry succeeds. -/
def envFetchThrows : LoadEnv :=
  ⟨⟨true, Except.error "network error"⟩, ⟨true, Except.ok mdSoil⟩, false,
    Except.error "no global object", Except.ok okClassifier⟩

/-- Witness for C7 at a concrete environment whose metadata fetch throws. -/
theorem loadModel_fetch_throws_not_ready_witness :
    envFetchThrows.fetch1.body = Except.error "network error" ∧
      (¬ (loadModel envFetchThrows initialState).1.isReady ∧
        (loadModel envFetchThrows initialState).1.modelLoadError = some loadErrorMsg ∧
        (loadModel envFetchThrows initialState).2 = [modelLoadFailedToast] ∧
        ∀ md2, envFetchThrows.fetch2.body = Except.ok md2 →
          (loadModel envFetchThrows initialState).1.metadata = some md2) :=
  ⟨rfl, loadModel_fetch_throws_not_ready envFetchThrows initialState
    "network error" rfl⟩

def mdAB : ModelMetadata := ⟨none, some ["A", "B"]⟩

/-- A ready-looking state whose classifier deterministically throws on
every call, over two-label metadata. -/
def readyThrowState : DashState :=
  ⟨some 0, [], false, some mdAB, some (⟨fun _ => Except.error "boom"⟩ : Classifier), none⟩

/-- C8 counterexample: the claim asks only that the `Ready` classifier be
deterministic; a classifier that deterministically THROWS is deterministic,
yet the two analyze calls then fall back to the randomized synthetic
generator, and with the two (valid) random streams drawn here the two
published sequences differ. -/
theorem analyze_twice_deterministic_cex :
    readyThrowState.isReady ∧ randZero.Valid ∧ randHalf.Valid ∧
      ((analyzeImage ((analyzeImage readyThrowState randZero).1) randHalf).1).predictions ≠
        ((analyzeImage readyThrowState randZero).1).predictions := by
  refine ⟨⟨rfl, rfl⟩, randZero_valid, randHalf_valid, ?_⟩
  have h1 : (analyzeImage readyThrowState randZero).1 =
      DashState.mk (some 0) (generateMockPredictions (some mdAB) randZero) false
        (some mdAB) (some (⟨fun _ => Except.error "boom"⟩ : Classifier)) none := by
    simp only [analyzeImage, readyThrowState]
  have hg1 : generateMockPredictions (some mdAB) randZero =
      [⟨"A", 1⟩, ⟨"B", 0⟩] := by
    norm_num [generateMockPredictions, mdAB, mockRawAux, totalProb, randZero]
  have hg2 : generateMockPredictions (some mdAB) randHalf =
      [⟨"A", 11/13⟩, ⟨"B", 2/13⟩] := by
    norm_num [generateMockPredictions, mdAB, mockRawAux, totalProb, randHalf]
  have hA : ((analyzeImage readyThrowState randZero).1).predictions =
      generateMockPredictions (some mdAB) randZero := by
    rw [h1]
  have h2 : ((analyzeImage ((analyzeImage readyThrowState randZero).1) randHalf).1).predictions =
      generateMockPredictions (some mdAB) randHalf := by
    rw [h1]
    simp only [analyzeImage]
  rw [h2, hA, hg1, hg2]
  norm_num

/-- C8 (amended): calling `analyze` twice with the same uploaded image,
under a `Ready` state whose classifier `predict` deterministically
SUCCEEDS, publishes the same prediction sequence both times, whatever
random draws occur. -/
theorem analyze_twice_deterministic (s : DashState) (m : Classifier)
    (img : Image) (preds : List Prediction) (r1 r2 : MockRand)
    (hm : s.model = some m) (herr : s.modelLoadError = none)
    (himg : s.image = some img) (hp : m.predict img = Except.ok preds) :
    ((analyzeImage ((analyzeImage s r1).1) r2).1).predictions =
      ((analyzeImage s r1).1).predictions := by
  have k1 : analyzeImage s r1 =
      ({ s with predictions := preds, isAnalyzing := false },
        [analysisCompleteToast]) := by
    simp only [analyzeImage, himg, hm, herr, hp]
  have k2 : analyzeImage
      ({ s with predictions := preds, isAnalyzing := false } : DashState) r2 =
      ({ s with predictions := preds, isAnalyzing := false },
        [analysisCompleteToast]) := by
    simp only [analyzeImage, himg, hm, herr, hp]
  rw [k1, k2]

/-- Witness for C8 at the concrete ready state with a succeeding
classifier. -/
theorem analyze_twice_deterministic_witness :
    readyState.model = some okClassifier ∧
      readyState.modelLoadError = none ∧ readyState.image = some 0 ∧
      okClassifier.predict 0 =
        Except.ok [⟨"Clay", 9/10⟩, ⟨"Sand", 1/10⟩, ⟨"Loam", 0⟩] ∧
      ((analyzeImage ((analyzeImage readyState randZero).1) randHalf).1).predictions =
        ((analyzeImage readyState randZero).1).predictions :=
  ⟨rfl, rfl, rfl, rfl,
    analyze_twice_deterministic readyState okClassifier 0
      [⟨"Clay", 9/10⟩, ⟨"Sand", 1/10⟩, ⟨"Loam", 0⟩] randZero randHalf
      rfl rfl rfl rfl⟩

/-- C10: the synthetic generator is total and its normalization never
divides by zero: absent metadata or an absent label list yields the empty
sequence, and for a non-empty label list with a valid random source the
raw probability total is at least 0.4 (the dominant raw draw alone is at
least 0.4), in particular strictly positive, so every published
probability is a well-defined rational. -/
theorem generateMock_total_safe (r : MockRand) (md : ModelMetadata)
    (labels : List String) (hr : r.Valid) :
    generateMockPredictions none r = [] ∧
      (md.labels = none → generateMockPredictions (some md) r = []) ∧
      (md.labels = some labels → labels ≠ [] →
        2/5 ≤ totalProb
          (mockRawAux r (Nat.floor (r.pick * labels.length)) 0 labels)) := by
  refine ⟨rfl, fun h => ?_, fun hl hne => mock_total_ge labels r hr hne⟩
  simp only [generateMockPredictions, h]

/-- Witness for C10 at the soil metadata and a concrete random source. -/
theorem generateMock_total_safe_witness :
    randHalf.Valid ∧
      (generateMockPredictions none randHalf = [] ∧
        ((mdSoil.labels = none → generateMockPredictions (some mdSoil) randHalf = []) ∧
          (mdSoil.labels = some ["Clay", "Sand", "Loam"] →
            (["Clay", "Sand", "Loam"] : List String) ≠ [] →
            2/5 ≤ totalProb (mockRawAux randHalf
              (Nat.floor (randHalf.pick * (["Clay", "Sand", "Loam"] : List String).length))
              0 ["Clay", "Sand", "Loam"])))) :=
  ⟨randHalf_valid,
    (generateMock_total_safe randHalf mdSoil ["Clay", "Sand", "Loam"] randHalf_valid).1,
    (generateMock_total_safe randHalf mdSoil ["Clay", "Sand", "Loam"] randHalf_valid).2.1,
    (generateMock_total_safe randHalf mdSoil ["Clay", "Sand", "Loam"] randHalf_valid).2.2⟩

/-- Arithmetic core of the three-label scenario: a dominant raw draw of at
least 0.4 normalizes to at least 0.4, while raw draws below 0.2 normalize
strictly below 0.4. -/
lemma three_norm_bounds (D u v : ℚ) (hD : 2/5 ≤ D) (hu : 0 ≤ u)
    (hu1 : u < 1/5) (hv : 0 ≤ v) (hv1 : v < 1/5) :
    2/5 ≤ D / (D + u + v) ∧ u / (D + u + v) < 2/5 ∧ v / (D + u + v) < 2/5 := by
  have ht : 0 < D + u + v := by linarith
  refine ⟨?_, ?_, ?_⟩
  · rw [le_div_iff₀ ht]; linarith
  · rw [div_lt_iff₀ ht]; linarith
  · rw [div_lt_iff₀ ht]; linarith

/-- For any three-label metadata and valid random source, the normalized
synthetic predictions contain exactly one entry with probability at least
0.4 (the dominant one). -/
lemma mock_three_countP (x y z : String) (r : MockRand)
    (hdr : ∀ j, 0 ≤ r.draw j ∧ r.draw j < 1) (d : Nat) (hd : d < 3) :
    List.countP (fun p => decide ((2:ℚ)/5 ≤ p.probability))
      ((mockRawAux r d 0 [x, y, z]).map
        (fun p => (⟨p.className,
          p.probability / totalProb (mockRawAux r d 0 [x, y, z])⟩ : Prediction))) = 1 := by
  obtain ⟨ha0, ha1⟩ := hdr 0
  obtain ⟨hb0, hb1⟩ := hdr 1
  obtain ⟨hc0, hc1⟩ := hdr 2
  interval_cases d
  · obtain ⟨k1, k2, k3⟩ := three_norm_bounds (r.draw 0 * (3/10) + 2/5)
      (r.draw 1 * (1/5)) (r.draw 2 * (1/5))
      (by linarith) (by linarith) (by linarith) (by linarith) (by linarith)
    simp only [mockRawAux, List.map_cons, List.map_nil, List.countP_cons,
      List.countP_nil]
    norm_num
    rw [show totalProb [(⟨x, r.draw 0 * (3/10) + 2/5⟩ : Prediction),
          ⟨y, r.draw 1 * (1/5)⟩, ⟨z, r.draw 2 * (1/5)⟩] =
        (r.draw 0 * (3/10) + 2/5) + r.draw 1 * (1/5) + r.draw 2 * (1/5) from by
      simp [totalProb_eq]; ring]
    rw [if_pos k1, if_neg (not_le.mpr k2), if_neg (not_le.mpr k3)]
  · obtain ⟨k1, k2, k3⟩ := three_norm_bounds (r.draw 1 * (3/10) + 2/5)
      (r.draw 0 * (1/5)) (r.draw 2 * (1/5))
      (by linarith) (by linarith) (by linarith) (by linarith) (by linarith)
    have halt : (r.draw 1 * (3/10) + 2/5) + r.draw 0 * (1/5) + r.draw 2 * (1/5) =
        r.draw 0 * (1/5) + (r.draw 1 * (3/10) + 2/5) + r.draw 2 * (1/5) := by ring
    rw [halt] at k1 k2 k3
    simp only [mockRawAux, List.map_cons, List.map_nil, List.countP_cons,
      List.countP_nil]
    norm_num
    rw [show totalProb [(⟨x, r.draw 0 * (1/5)⟩ : Prediction),
          ⟨y, r.draw 1 * (3/10) + 2/5⟩, ⟨z, r.draw 2 * (1/5)⟩] =
        r.draw 0 * (1/5) + (r.draw 1 * (3/10) + 2/5) + r.draw 2 * (1/5) from by
      simp [totalProb_eq]; ring]
    rw [if_pos k1, if_neg (not_le.mpr k2), if_neg (not_le.mpr k3)]
  · obtain ⟨k1, k2, k3⟩ := three_norm_bounds (r.draw 2 * (3/10) + 2/5)
      (r.draw 0 * (1/5)) (r.draw 1 * (1/5))
      (by linarith) (by linarith) (by linarith) (by linarith) (by linarith)
    have halt : (r.draw 2 * (3/10) + 2/5) + r.draw 0 * (1/5) + r.draw 1 * (1/5) =
        r.draw 0 * (1/5) + r.draw 1 * (1/5) + (r.draw 2 * (3/10) + 2/5) := by ring
    rw [halt] at k1 k2 k3
    simp only [mockRawAux, List.map_cons, List.map_nil, List.countP_cons,
      List.countP_nil]
    norm_num
    rw [show totalProb [(⟨x, r.draw 0 * (1/5)⟩ : Prediction),
          ⟨y, r.draw 1 * (1/5)⟩, ⟨z, r.draw 2 * (3/10) + 2/5⟩] =
        r.draw 0 * (1/5) + r.draw 1 * (1/5) + (r.draw 2 * (3/10) + 2/5) from by
      simp [totalProb_eq]; ring]
    rw [if_pos k1, if_neg (not_le.mpr k2), if_neg (not_le.mpr k3)]

/-- For any three-label metadata the synthetic generator yields 3
predictions, summing to 1, with exactly one entry of probability at least
0.4. -/
lemma generateMock_three (nm : Option String) (x y z : String) (r : MockRand)
    (hr : r.Valid) :
    (generateMockPredictions (some ⟨nm, some [x, y, z]⟩) r).length = 3 ∧
      probSum (generateMockPredictions (some ⟨nm, some [x, y, z]⟩) r) = 1 ∧
      List.countP (fun p => decide ((2:ℚ)/5 ≤ p.probability))
        (generateMockPredictions (some ⟨nm, some [x, y, z]⟩) r) = 1 := by
  obtain ⟨hlen, hsum⟩ := generateMock_length_sum ⟨nm, some [x, y, z]⟩
    [x, y, z] r rfl (by simp) hr
  refine ⟨by simpa using hlen, hsum, ?_⟩
  have hnn : (0:ℚ) ≤ r.pick * ((List.length [x, y, z] : ℕ) : ℚ) :=
    mul_nonneg hr.1 (by positivity)
  have hd3 : Nat.floor (r.pick * ((List.length [x, y, z] : ℕ) : ℚ)) < 3 := by
    rw [Nat.floor_lt hnn]
    norm_num
    linarith [hr.2.1]
  have hform : generateMockPredictions (some ⟨nm, some [x, y, z]⟩) r =
      (mockRawAux r (Nat.floor (r.pick * ((List.length [x, y, z] : ℕ) : ℚ)))
          0 [x, y, z]).map
        (fun p => (⟨p.className, p.probability /
          totalProb (mockRawAux r
            (Nat.floor (r.pick * ((List.length [x, y, z] : ℕ) : ℚ)))
            0 [x, y, z])⟩ : Prediction)) := rfl
  rw [hform]
  exact mock_three_countP x y z r hr.2.2 _ hd3

/-- C5: with the three-label soil metadata loaded and the classifier load
failed (degraded state), every `analyze` call publishes exactly 3
predictions whose probabilities sum to exactly 1, exactly one of which has
probability at least 0.4 — the dominant label drawn in [0.4, 0.7), the
others in [0.0, 0.2), the vector normalized by the raw sum. -/
theorem scenarioA_three_labels (s : DashState) (r : MockRand) (img : Image)
    (himg : s.image = some img)
    (hmeta : s.metadata =
      some ⟨some "Soil Classifier", some ["Clay", "Sand", "Loam"]⟩)
    (hdeg : s.modelLoadError.isSome = true) (hr : r.Valid) :
    ((analyzeImage s r).1.predictions).length = 3 ∧
      probSum ((analyzeImage s r).1.predictions) = 1 ∧
      List.countP (fun p => decide ((2:ℚ)/5 ≤ p.probability))
        ((analyzeImage s r).1.predictions) = 1 := by
  rw [analyzeImage_fallback s r img himg hdeg]
  simp only [hmeta]
  exact generateMock_three (some "Soil Classifier") "Clay" "Sand" "Loam" r hr

/-- Witness for C5 at a concrete degraded state carrying the soil
metadata. -/
theorem scenarioA_three_labels_witness :
    (DashState.mk (some 0) [] false (some mdSoil) none (some "load failed")).image = some 0 ∧
      (DashState.mk (some 0) [] false (some mdSoil) none (some "load failed")).metadata =
        some ⟨some "Soil Classifier", some ["Clay", "Sand", "Loam"]⟩ ∧
      (DashState.mk (some 0) [] false (some mdSoil) none (some "load failed")).modelLoadError.isSome = true ∧
      randHalf.Valid ∧
      (((analyzeImage (DashState.mk (some 0) [] false (some mdSoil) none (some "load failed")) randHalf).1.predictions).length = 3 ∧
        probSum ((analyzeImage (DashState.mk (some 0) [] false (some mdSoil) none (some "load failed")) randHalf).1.predictions) = 1 ∧
        List.countP (fun p => decide ((2:ℚ)/5 ≤ p.probability))
          ((analyzeImage (DashState.mk (some 0) [] false (some mdSoil) none (some "load failed")) randHalf).1.predictions) = 1) :=
  ⟨rfl, rfl, rfl, randHalf_valid,
    scenarioA_three_labels _ randHalf 0 rfl rfl rfl randHalf_valid⟩
